/-
Verification of the ESP32 smart-farming irrigation controller.

Shallow embedding of the sensor-validation / irrigation-decision / safety
core of the repository. Two build variants are modelled:

* namespace `MainV`  — `src/MainCode/smart_farming_online.ino`
* namespace `OnlineV` — `src/MainCode/online/online.ino`

Configuration constants are taken from `src/MainCode/online/config.h` with
the `CUSTOM_ONLINE` setup type (DHT22 enabled, LDR disabled, potentiometer
control), which matches the conditional-compilation branches present in the
source structs. C `unsigned long` timestamps are modelled as `Nat` reduced
modulo `2 ^ 32` at every subtraction (`usub`), C `int` division as `Int.tdiv`
(truncation toward zero), and C `float` sensor values as exact rationals.
The display, LEDs, WiFi, cloud transmission and data-log ring buffer are
output-only collaborators and are not part of the modelled state; the relay
output line is kept as a `Bool`. The web server delivers at most one control
action per cycle at the `server.handleClient()` point.
-/
import Mathlib

set_option autoImplicit false

namespace SmartFarm

/-! ### Configuration constants (config.h) -/

/-- Modulus of C `unsigned long` on ESP32: `2 ^ 32`. -/
def U32 : Nat := 4294967296

def SOIL_MOISTURE_THRESHOLD : Int := 30
def IRRIGATION_DURATION : Nat := 5000
def IRRIGATION_COOLDOWN : Nat := 300000
def MAX_DAILY_IRRIGATIONS : Nat := 10
def MAX_PUMP_RUNTIME : Nat := 300000
def MAX_SENSOR_ERRORS : Nat := 5
def SENSOR_READ_INTERVAL : Nat := 5000
def STATUS_CHECK_INTERVAL : Nat := 1000
def RECOVERY_ATTEMPTS : Nat := 3
def SENSOR_DISCONNECT_THRESHOLD : Nat := 10
def SENSOR_CONSISTENCY_THRESHOLD : Int := 5
def MAX_SOIL_MOISTURE_CHANGE : Int := 20
def MAX_LIGHT_CHANGE : Int := 30
def MIN_TEMPERATURE : ℚ := -10
def MAX_TEMPERATURE : ℚ := 60
def MIN_HUMIDITY : ℚ := 0
def MAX_HUMIDITY : ℚ := 100
def MIN_SOIL_MOISTURE : Int := 0
def MAX_SOIL_MOISTURE : Int := 100
def MIN_LIGHT_LEVEL : Int := 0
def MAX_LIGHT_LEVEL : Int := 100
def SOIL_MOISTURE_DRY_VALUE : Int := 4095
def SOIL_MOISTURE_WET_VALUE : Int := 0

def EMERGENCY_STOP_ENABLED : Bool := true
def PUMP_RUNTIME_PROTECTION : Bool := true
def AUTO_RECOVERY_ENABLED : Bool := true
def TEMPERATURE_VALIDATION : Bool := true
def HUMIDITY_VALIDATION : Bool := true
def SOIL_MOISTURE_VALIDATION : Bool := true
def LIGHT_VALIDATION : Bool := true
def CONSISTENCY_VALIDATION : Bool := true

/-! ### C arithmetic helpers -/

/-- Subtraction of `unsigned long` values: `(a - b) mod 2^32`, as produced by
C unsigned arithmetic for arbitrary `Nat` representatives. -/
def usub (a b : Nat) : Nat := (a + (U32 - b % U32)) % U32

/-- Arduino `map(x, inMin, inMax, outMin, outMax)`; `long` division in C
truncates toward zero, which is `Int.tdiv`. -/
def mapRange (x inMin inMax outMin outMax : Int) : Int :=
  Int.tdiv ((x - inMin) * (outMax - outMin)) (inMax - inMin) + outMin

/-- Arduino `constrain(amt, low, high)`. -/
def constrainI (x lo hi : Int) : Int :=
  if x < lo then lo else if x > hi then hi else x

/-- C expression `(int)(x * 10)` on a float sensor value modelled as an
exact rational: truncation toward zero of `10 * q`, computed as truncating
division of `10 * q.num` by `q.den` (the value of a truncated quotient does
not depend on the choice of representative). -/
def ctrunc10 (q : ℚ) : Int := Int.tdiv (q.num * 10) (q.den : Int)

/-- Soil-moisture percentage computed in `readSensors`:
`constrain(map(raw, WET, DRY, 100, 0), 0, 100)`. -/
def soilPercentOfRaw (raw : Int) : Int :=
  constrainI (mapRange raw SOIL_MOISTURE_WET_VALUE SOIL_MOISTURE_DRY_VALUE 100 0) 0 100

/-- Web request delivered to `handleControl` (`/control` endpoint). -/
inductive WebReq where
  | start
  | stop
  | other
  | noArg
deriving DecidableEq, Repr

namespace MainV

/-! ### Data model of `smart_farming_online.ino` -/

/-- The `sensorValidation` global struct. History arrays have
`SENSOR_CONSISTENCY_CHECKS = 3` slots. -/
structure SensorValidation where
  lastTemperature : ℚ
  lastHumidity : ℚ
  lastSoilMoisture : Int
  temperatureReadings : Fin 3 → Int
  humidityReadings : Fin 3 → Int
  soilMoistureReadings : Fin 3 → Int
  readingIndex : Fin 3
  temperatureValid : Bool
  humidityValid : Bool
  soilMoistureValid : Bool
  disconnectCount : Nat

/-- The core fields of the `systemState` global struct (display, WiFi and
transmission bookkeeping omitted as out-of-scope collaborators). -/
structure SystemState where
  temperature : ℚ
  humidity : ℚ
  soilMoistureRaw : Int
  soilMoisturePercent : Int
  pumpActive : Bool
  systemOK : Bool
  emergencyStop : Bool
  lastIrrigation : Nat
  pumpStartTime : Nat
  dailyIrrigations : Nat
  lastSensorRead : Nat
  sensorErrors : Nat
  recoveryAttempts : Nat
  lastErrorCheck : Nat
  adjustedThreshold : Int

/-- Whole controller state: the two global structs plus the relay output
line driven by `digitalWrite(RELAY_PIN, _)`. -/
structure St where
  sys : SystemState
  val : SensorValidation
  relay : Bool

/-- Inputs consumed during one pass of `loop()`: the DHT sample
(`none` models a NaN read failure), the raw soil-moisture ADC value, the
pending web request if any, and the DHT test sample used by
`attemptSystemRecovery` (`none` models NaN). -/
structure Input where
  dht : Option (ℚ × ℚ)
  soilRaw : Int
  web : Option WebReq
  recoveryDht : Option (ℚ × ℚ)

/-! ### Sample validator -/

/-- Function `isSensorReadingValid(value, minVal, maxVal, enabled)`. -/
def isSensorReadingValid (value minVal maxVal : ℚ) (enabled : Bool) : Bool :=
  if !enabled then true
  else decide (minVal ≤ value ∧ value ≤ maxVal)

/-- Function `checkSensorConsistency(readings, newReading)`: integer average
of the three stored samples, reject when the deviation exceeds the
threshold. -/
def checkSensorConsistency (readings : Fin 3 → Int) (newReading : Int) : Bool :=
  let sum := readings 0 + readings 1 + readings 2
  let average := Int.tdiv sum 3
  let deviation := |newReading - average|
  decide (deviation ≤ SENSOR_CONSISTENCY_THRESHOLD)

/-- Function `validateSensorReadings(temperature, humidity, soilMoisture)`:
range checks, soil sudden-change check, the three consistency checks
combined with `&=`, then the `last*` fields and the history arrays are
updated and the ring index advances modulo 3. -/
def validateSensorReadings (v : SensorValidation) (temperature humidity : ℚ)
    (soilMoisture : Int) : SensorValidation :=
  let tempValid0 := isSensorReadingValid temperature MIN_TEMPERATURE MAX_TEMPERATURE TEMPERATURE_VALIDATION
  let humValid0 := isSensorReadingValid humidity MIN_HUMIDITY MAX_HUMIDITY HUMIDITY_VALIDATION
  let soilValid0 := isSensorReadingValid (soilMoisture : ℚ) (MIN_SOIL_MOISTURE : Int) (MAX_SOIL_MOISTURE : Int) SOIL_MOISTURE_VALIDATION
  let soilValid1 :=
    if SOIL_MOISTURE_VALIDATION && soilValid0 then
      if |soilMoisture - v.lastSoilMoisture| > MAX_SOIL_MOISTURE_CHANGE then false else soilValid0
    else soilValid0
  let tempValid1 :=
    if CONSISTENCY_VALIDATION then
      tempValid0 && checkSensorConsistency v.temperatureReadings (ctrunc10 temperature)
    else tempValid0
  let humValid1 :=
    if CONSISTENCY_VALIDATION then
      humValid0 && checkSensorConsistency v.humidityReadings (ctrunc10 humidity)
    else humValid0
  let soilValid2 :=
    if CONSISTENCY_VALIDATION then
      soilValid1 && checkSensorConsistency v.soilMoistureReadings soilMoisture
    else soilValid1
  { lastTemperature := temperature
    lastHumidity := humidity
    lastSoilMoisture := soilMoisture
    temperatureReadings := fun j => if j = v.readingIndex then ctrunc10 temperature else v.temperatureReadings j
    humidityReadings := fun j => if j = v.readingIndex then ctrunc10 humidity else v.humidityReadings j
    soilMoistureReadings := fun j => if j = v.readingIndex then soilMoisture else v.soilMoistureReadings j
    readingIndex := v.readingIndex + 1
    temperatureValid := tempValid1
    humidityValid := humValid1
    soilMoistureValid := soilValid2
    disconnectCount := v.disconnectCount }

/-- Function `readSensors()`. A `none` DHT sample is the
`isnan(temperature) || isnan(humidity)` early-return path. Only when all
three validity flags hold is the `systemState` sensor snapshot updated and
are the error counters reset. -/
def readSensors (dht : Option (ℚ × ℚ)) (soilRaw : Int) (s : St) : St :=
  match dht with
  | none =>
      { s with
        sys := { s.sys with sensorErrors := s.sys.sensorErrors + 1 }
        val := { s.val with disconnectCount := s.val.disconnectCount + 1 } }
  | some (temperature, humidity) =>
      let soilMoisturePercent := soilPercentOfRaw soilRaw
      let v := validateSensorReadings s.val temperature humidity soilMoisturePercent
      if v.temperatureValid && v.humidityValid && v.soilMoistureValid then
        { s with
          sys := { s.sys with
            temperature := temperature
            humidity := humidity
            soilMoistureRaw := soilRaw
            soilMoisturePercent := soilMoisturePercent
            sensorErrors := 0 }
          val := { v with disconnectCount := 0 } }
      else
        { s with
          sys := { s.sys with sensorErrors := s.sys.sensorErrors + 1 }
          val := v }

/-! ### Irrigation decision engine -/

/-- Function `startIrrigation()` at loop time `now`. -/
def startIrrigation (now : Nat) (s : St) : St :=
  { s with
    relay := true
    sys := { s.sys with
      pumpActive := true
      pumpStartTime := now
      lastIrrigation := now
      dailyIrrigations := s.sys.dailyIrrigations + 1 } }

/-- Function `stopIrrigation()`. -/
def stopIrrigation (s : St) : St :=
  { s with
    relay := false
    sys := { s.sys with pumpActive := false } }

/-- Function `controlIrrigation()`. With potentiometer control compiled in,
the threshold is the live `adjustedThreshold`. The start branch runs first,
then the duration-stop branch re-reads the (possibly updated) state, exactly
as the two sequential `if` statements do. -/
def controlIrrigation (now : Nat) (s : St) : St :=
  let threshold := s.sys.adjustedThreshold
  let needsIrrigation := decide (s.sys.soilMoisturePercent < threshold)
  let cooldownExpired := decide (usub now s.sys.lastIrrigation ≥ IRRIGATION_COOLDOWN)
  let withinDailyLimit := decide (s.sys.dailyIrrigations < MAX_DAILY_IRRIGATIONS)
  let systemHealthy := s.sys.systemOK && decide (s.sys.sensorErrors < MAX_SENSOR_ERRORS)
  let s1 :=
    if needsIrrigation && cooldownExpired && withinDailyLimit && systemHealthy && !s.sys.pumpActive then
      startIrrigation now s
    else s
  if s1.sys.pumpActive && decide (usub now s1.sys.lastIrrigation ≥ IRRIGATION_DURATION) then
    stopIrrigation s1
  else s1

/-! ### Safety supervisor -/

/-- Function `checkPumpRuntime()`. -/
def checkPumpRuntime (now : Nat) (s : St) : St :=
  if s.sys.pumpActive && decide (usub now s.sys.pumpStartTime ≥ MAX_PUMP_RUNTIME) then
    stopIrrigation s
  else s

/-- Function `emergencyStop()`: stop the pump if running, then latch the
flag and mark the system unhealthy. -/
def emergencyStopProc (s : St) : St :=
  let s1 := if s.sys.pumpActive then stopIrrigation s else s
  { s1 with sys := { s1.sys with emergencyStop := true, systemOK := false } }

/-- Function `handleControl()` (the `/control` web endpoint), dispatching on
the pending request. Requests without a valid action only produce an HTTP
error response and leave the controller state unchanged. -/
def handleControlReq (now : Nat) (req : Option WebReq) (s : St) : St :=
  match req with
  | some WebReq.start => startIrrigation now s
  | some WebReq.stop => stopIrrigation s
  | some WebReq.other => s
  | some WebReq.noArg => s
  | none => s

/-- Function `checkSystemStatus()` (sensor-error part; the memory print has
no state effect). -/
def checkSystemStatus (s : St) : St :=
  if s.sys.sensorErrors ≥ MAX_SENSOR_ERRORS then
    { s with sys := { s.sys with systemOK := false } }
  else if s.sys.sensorErrors = 0 then
    { s with sys := { s.sys with systemOK := true } }
  else s

/-- Function `attemptSystemRecovery()`: bump the attempt counter, reset the
validation flags and error counters, re-test the DHT sensor (`none` models a
NaN test read) and on success clear the unhealthy state. -/
def attemptSystemRecovery (recoveryDht : Option (ℚ × ℚ)) (s : St) : St :=
  let s1 :=
    { s with
      sys := { s.sys with
        recoveryAttempts := s.sys.recoveryAttempts + 1
        sensorErrors := 0 }
      val := { s.val with
        temperatureValid := true
        humidityValid := true
        soilMoistureValid := true
        disconnectCount := 0 } }
  match recoveryDht with
  | some _ =>
      { s1 with sys := { s1.sys with systemOK := true, recoveryAttempts := 0 } }
  | none => s1

/-! ### The control loop -/

/-- Loop statement `if (PUMP_RUNTIME_PROTECTION && systemState.pumpActive)
checkPumpRuntime();`. -/
def runtimePhase (now : Nat) (s : St) : St :=
  if PUMP_RUNTIME_PROTECTION && s.sys.pumpActive then checkPumpRuntime now s else s

/-- Loop statement reading the sensors when `SENSOR_READ_INTERVAL` has
elapsed, then recording `lastSensorRead = currentTime`. -/
def sensorPhase (now : Nat) (i : Input) (s : St) : St :=
  if usub now s.sys.lastSensorRead ≥ SENSOR_READ_INTERVAL then
    let sr := readSensors i.dht i.soilRaw s
    { sr with sys := { sr.sys with lastSensorRead := now } }
  else s

/-- Loop statement running `checkSystemStatus()` when
`STATUS_CHECK_INTERVAL` has elapsed, then recording `lastErrorCheck`. -/
def statusPhase (now : Nat) (s : St) : St :=
  if usub now s.sys.lastErrorCheck ≥ STATUS_CHECK_INTERVAL then
    let sc := checkSystemStatus s
    { sc with sys := { sc.sys with lastErrorCheck := now } }
  else s

/-- Loop statement running `attemptSystemRecovery()` while unhealthy and
under the attempt bound. -/
def recoveryPhase (i : Input) (s : St) : St :=
  if AUTO_RECOVERY_ENABLED && !s.sys.systemOK
      && decide (s.sys.recoveryAttempts < RECOVERY_ATTEMPTS) then
    attemptSystemRecovery i.recoveryDht s
  else s

/-- One pass of `loop()` at time `now = millis()`, restricted to the
state-mutating core in source order: emergency branch (with its early
`return`), pump runtime protection, web request dispatch
(`server.handleClient()`), interval-gated sensor read, irrigation control,
interval-gated status check and bounded automatic recovery. Display, LED,
WiFi, cloud and data-log calls do not touch the modelled state. -/
def cycle (now : Nat) (i : Input) (s : St) : St :=
  if EMERGENCY_STOP_ENABLED && s.sys.emergencyStop then
    emergencyStopProc s
  else
    recoveryPhase i
      (statusPhase now
        (controlIrrigation now
          (sensorPhase now i
            (handleControlReq now i.web
              (runtimePhase now s)))))

/-- Run a sequence of cycles, each with its own loop time and inputs. -/
def runCycles (s : St) : List (Nat × Input) → St
  | [] => s
  | c :: rest => runCycles (cycle c.1 c.2 s) rest

/-- Initial controller state: the default member values of the two global
structs, with the relay driven low by `initializeActuators()`. -/
def initSt : St :=
  { sys :=
    { temperature := 0
      humidity := 0
      soilMoistureRaw := 0
      soilMoisturePercent := 0
      pumpActive := false
      systemOK := true
      emergencyStop := false
      lastIrrigation := 0
      pumpStartTime := 0
      dailyIrrigations := 0
      lastSensorRead := 0
      sensorErrors := 0
      recoveryAttempts := 0
      lastErrorCheck := 0
      adjustedThreshold := SOIL_MOISTURE_THRESHOLD }
    val :=
    { lastTemperature := 0
      lastHumidity := 0
      lastSoilMoisture := 0
      temperatureReadings := fun _ => 0
      humidityReadings := fun _ => 0
      soilMoistureReadings := fun _ => 0
      readingIndex := 0
      temperatureValid := true
      humidityValid := true
      soilMoistureValid := true
      disconnectCount := 0 }
    relay := false }

end MainV

namespace OnlineV

/-! ### Data model of `online/online.ino` (second build variant) -/

/-- The `sensorValidation` global struct of the online variant, which adds
the light channel. -/
structure SensorValidation where
  lastTemperature : ℚ
  lastHumidity : ℚ
  lastSoilMoisture : Int
  lastLightLevel : Int
  temperatureReadings : Fin 3 → Int
  humidityReadings : Fin 3 → Int
  soilMoistureReadings : Fin 3 → Int
  lightLevelReadings : Fin 3 → Int
  readingIndex : Fin 3
  temperatureValid : Bool
  humidityValid : Bool
  soilMoistureValid : Bool
  lightLevelValid : Bool
  disconnectCount : Nat

/-- Core fields of the online variant's `systemState` struct. -/
structure SystemState where
  temperature : ℚ
  humidity : ℚ
  soilMoistureRaw : Int
  soilMoisturePercent : Int
  lightLevelRaw : Int
  lightLevelPercent : Int
  pumpActive : Bool
  systemOK : Bool
  emergencyStop : Bool
  lastIrrigation : Nat
  pumpStartTime : Nat
  dailyIrrigations : Nat
  sensorErrors : Nat
  adjustedThreshold : Int

/-- Controller state of the online variant plus the relay output line. -/
structure St where
  sys : SystemState
  val : SensorValidation
  relay : Bool

/-- Function `validateSensorReadings(temperature, humidity, soilMoisture,
lightLevel)` of the online variant: four range checks, soil and light
sudden-change checks, four consistency checks combined with `&=`, then the
history update. -/
def validateSensorReadings (v : SensorValidation) (temperature humidity : ℚ)
    (soilMoisture lightLevel : Int) : SensorValidation :=
  let tempValid0 := MainV.isSensorReadingValid temperature MIN_TEMPERATURE MAX_TEMPERATURE TEMPERATURE_VALIDATION
  let humValid0 := MainV.isSensorReadingValid humidity MIN_HUMIDITY MAX_HUMIDITY HUMIDITY_VALIDATION
  let soilValid0 := MainV.isSensorReadingValid (soilMoisture : ℚ) (MIN_SOIL_MOISTURE : Int) (MAX_SOIL_MOISTURE : Int) SOIL_MOISTURE_VALIDATION
  let lightValid0 := MainV.isSensorReadingValid (lightLevel : ℚ) (MIN_LIGHT_LEVEL : Int) (MAX_LIGHT_LEVEL : Int) LIGHT_VALIDATION
  let soilValid1 :=
    if SOIL_MOISTURE_VALIDATION && soilValid0 then
      if |soilMoisture - v.lastSoilMoisture| > MAX_SOIL_MOISTURE_CHANGE then false else soilValid0
    else soilValid0
  let lightValid1 :=
    if LIGHT_VALIDATION && lightValid0 then
      if |lightLevel - v.lastLightLevel| > MAX_LIGHT_CHANGE then false else lightValid0
    else lightValid0
  let tempValid1 :=
    if CONSISTENCY_VALIDATION then
      tempValid0 && MainV.checkSensorConsistency v.temperatureReadings (ctrunc10 temperature)
    else tempValid0
  let humValid1 :=
    if CONSISTENCY_VALIDATION then
      humValid0 && MainV.checkSensorConsistency v.humidityReadings (ctrunc10 humidity)
    else humValid0
  let soilValid2 :=
    if CONSISTENCY_VALIDATION then
      soilValid1 && MainV.checkSensorConsistency v.soilMoistureReadings soilMoisture
    else soilValid1
  let lightValid2 :=
    if CONSISTENCY_VALIDATION then
      lightValid1 && MainV.checkSensorConsistency v.lightLevelReadings lightLevel
    else lightValid1
  { lastTemperature := temperature
    lastHumidity := humidity
    lastSoilMoisture := soilMoisture
    lastLightLevel := lightLevel
    temperatureReadings := fun j => if j = v.readingIndex then ctrunc10 temperature else v.temperatureReadings j
    humidityReadings := fun j => if j = v.readingIndex then ctrunc10 humidity else v.humidityReadings j
    soilMoistureReadings := fun j => if j = v.readingIndex then soilMoisture else v.soilMoistureReadings j
    lightLevelReadings := fun j => if j = v.readingIndex then lightLevel else v.lightLevelReadings j
    readingIndex := v.readingIndex + 1
    temperatureValid := tempValid1
    humidityValid := humValid1
    soilMoistureValid := soilValid2
    lightLevelValid := lightValid2
    disconnectCount := v.disconnectCount }

/-- Function `readSensors()` of the online variant (LDR disabled build:
light defaults to raw 2048 and 50 percent). Soil moisture and light level
are ALWAYS written into `systemState` — the source comment reads "Always
update soil moisture (critical for irrigation), but validate others" — and
only the DHT snapshot is gated, on `temperatureValid && humidityValid`. -/
def readSensors (dht : Option (ℚ × ℚ)) (soilRaw : Int) (s : St) : St :=
  match dht with
  | none =>
      { s with
        sys := { s.sys with sensorErrors := s.sys.sensorErrors + 1 }
        val := { s.val with disconnectCount := s.val.disconnectCount + 1 } }
  | some (temperature, humidity) =>
      let soilMoisturePercent := soilPercentOfRaw soilRaw
      let lightLevelRaw : Int := 2048
      let lightLevelPercent : Int := 50
      let v := validateSensorReadings s.val temperature humidity soilMoisturePercent lightLevelPercent
      let s1 :=
        { s with
          sys := { s.sys with
            soilMoistureRaw := soilRaw
            soilMoisturePercent := soilMoisturePercent
            lightLevelRaw := lightLevelRaw
            lightLevelPercent := lightLevelPercent }
          val := v }
      if v.temperatureValid && v.humidityValid then
        { s1 with
          sys := { s1.sys with
            temperature := temperature
            humidity := humidity
            sensorErrors := 0 }
          val := { s1.val with disconnectCount := 0 } }
      else
        { s1 with sys := { s1.sys with sensorErrors := s1.sys.sensorErrors + 1 } }

/-- Function `startIrrigation()` of the online variant. -/
def startIrrigation (now : Nat) (s : St) : St :=
  { s with
    relay := true
    sys := { s.sys with
      pumpActive := true
      pumpStartTime := now
      lastIrrigation := now
      dailyIrrigations := s.sys.dailyIrrigations + 1 } }

/-- Function `stopIrrigation()` of the online variant. -/
def stopIrrigation (s : St) : St :=
  { s with
    relay := false
    sys := { s.sys with pumpActive := false } }

/-- Function `controlIrrigation()` of the online variant (identical logic
to the main variant). -/
def controlIrrigation (now : Nat) (s : St) : St :=
  let threshold := s.sys.adjustedThreshold
  let needsIrrigation := decide (s.sys.soilMoisturePercent < threshold)
  let cooldownExpired := decide (usub now s.sys.lastIrrigation ≥ IRRIGATION_COOLDOWN)
  let withinDailyLimit := decide (s.sys.dailyIrrigations < MAX_DAILY_IRRIGATIONS)
  let systemHealthy := s.sys.systemOK && decide (s.sys.sensorErrors < MAX_SENSOR_ERRORS)
  let s1 :=
    if needsIrrigation && cooldownExpired && withinDailyLimit && systemHealthy && !s.sys.pumpActive then
      startIrrigation now s
    else s
  if s1.sys.pumpActive && decide (usub now s1.sys.lastIrrigation ≥ IRRIGATION_DURATION) then
    stopIrrigation s1
  else s1

/-- Initial state of the online variant (default member values, relay low). -/
def initSt : St :=
  { sys :=
    { temperature := 0
      humidity := 0
      soilMoistureRaw := 0
      soilMoisturePercent := 0
      lightLevelRaw := 0
      lightLevelPercent := 0
      pumpActive := false
      systemOK := true
      emergencyStop := false
      lastIrrigation := 0
      pumpStartTime := 0
      dailyIrrigations := 0
      sensorErrors := 0
      adjustedThreshold := SOIL_MOISTURE_THRESHOLD }
    val :=
    { lastTemperature := 0
      lastHumidity := 0
      lastSoilMoisture := 0
      lastLightLevel := 0
      temperatureReadings := fun _ => 0
      humidityReadings := fun _ => 0
      soilMoistureReadings := fun _ => 0
      lightLevelReadings := fun _ => 0
      readingIndex := 0
      temperatureValid := true
      humidityValid := true
      soilMoistureValid := true
      lightLevelValid := true
      disconnectCount := 0 }
    relay := false }

end OnlineV

/-! ### Verification predicates and concrete inputs -/

namespace MainV

/-- Safety predicate: whenever the pump is on, its elapsed runtime at loop
time `now` is still below the hard ceiling. -/
def PumpOk (now : Nat) (s : St) : Prop :=
  s.sys.pumpActive = true → usub now s.sys.pumpStartTime < MAX_PUMP_RUNTIME

/-- Cycle input delivering a `/control?action=start` web request, with no
sensor data (NaN DHT read). -/
def webStartInput : Input := ⟨none, 0, some WebReq.start, none⟩

/-- Cycle input with no web request and no sensor data (NaN DHT read). -/
def quietInput : Input := ⟨none, 0, none, none⟩

/-- A state with the emergency-stop latch set (otherwise initial). -/
def estopSt : St := { initSt with sys := { initSt.sys with emergencyStop := true } }

end MainV

/-! ## Theorems -/

theorem usub_self (a : Nat) : usub a a = 0 := by
  unfold usub U32
  omega

namespace MainV

theorem stopIrrigation_pumpOk (now : Nat) (s : St) : PumpOk now (stopIrrigation s) := by
  intro h
  simp [stopIrrigation] at h

theorem startIrrigation_pumpOk (now : Nat) (s : St) : PumpOk now (startIrrigation now s) := by
  intro _
  show usub now now < MAX_PUMP_RUNTIME
  rw [usub_self]
  decide

theorem pumpOk_of_frames {now : Nat} {s t : St}
    (hA : t.sys.pumpActive = s.sys.pumpActive)
    (hT : t.sys.pumpStartTime = s.sys.pumpStartTime)
    (hs : PumpOk now s) : PumpOk now t := by
  intro hp
  rw [hT]
  exact hs (hA ▸ hp)

theorem checkPumpRuntime_pumpOk (now : Nat) (s : St) : PumpOk now (checkPumpRuntime now s) := by
  unfold checkPumpRuntime
  split
  · exact stopIrrigation_pumpOk now s
  · rename_i h
    intro hp
    simp [hp] at h
    omega

theorem runtimePhase_pumpOk (now : Nat) (s : St) : PumpOk now (runtimePhase now s) := by
  unfold runtimePhase
  split
  · exact checkPumpRuntime_pumpOk now s
  · rename_i h
    intro hp
    simp [PUMP_RUNTIME_PROTECTION, hp] at h

theorem handleControlReq_pumpOk (now : Nat) (w : Option WebReq) (s : St)
    (hs : PumpOk now s) : PumpOk now (handleControlReq now w s) := by
  cases w with
  | none => exact hs
  | some a =>
    cases a with
    | start => exact startIrrigation_pumpOk now s
    | stop => exact stopIrrigation_pumpOk now s
    | other => exact hs
    | noArg => exact hs

theorem readSensors_pumpActive (d : Option (ℚ × ℚ)) (r : Int) (s : St) :
    (readSensors d r s).sys.pumpActive = s.sys.pumpActive := by
  unfold readSensors
  cases d with
  | none => rfl
  | some p =>
    cases p
    dsimp only
    split <;> rfl

theorem readSensors_pumpStartTime (d : Option (ℚ × ℚ)) (r : Int) (s : St) :
    (readSensors d r s).sys.pumpStartTime = s.sys.pumpStartTime := by
  unfold readSensors
  cases d with
  | none => rfl
  | some p =>
    cases p
    dsimp only
    split <;> rfl

theorem sensorPhase_pumpOk (now : Nat) (i : Input) (s : St)
    (hs : PumpOk now s) : PumpOk now (sensorPhase now i s) := by
  unfold sensorPhase
  split
  · exact pumpOk_of_frames (readSensors_pumpActive i.dht i.soilRaw s)
      (readSensors_pumpStartTime i.dht i.soilRaw s) hs
  · exact hs

theorem controlIrrigation_pumpOk (now : Nat) (s : St)
    (hs : PumpOk now s) : PumpOk now (controlIrrigation now s) := by
  unfold controlIrrigation
  dsimp only
  split <;> split
  · exact stopIrrigation_pumpOk now _
  · exact startIrrigation_pumpOk now s
  · exact stopIrrigation_pumpOk now _
  · exact hs

theorem checkSystemStatus_pumpActive (s : St) :
    (checkSystemStatus s).sys.pumpActive = s.sys.pumpActive := by
  unfold checkSystemStatus
  split
  · rfl
  · split <;> rfl

theorem checkSystemStatus_pumpStartTime (s : St) :
    (checkSystemStatus s).sys.pumpStartTime = s.sys.pumpStartTime := by
  unfold checkSystemStatus
  split
  · rfl
  · split <;> rfl

theorem statusPhase_pumpOk (now : Nat) (s : St)
    (hs : PumpOk now s) : PumpOk now (statusPhase now s) := by
  unfold statusPhase
  split
  · exact pumpOk_of_frames (checkSystemStatus_pumpActive s) (checkSystemStatus_pumpStartTime s) hs
  · exact hs

theorem attemptSystemRecovery_pumpActive (r : Option (ℚ × ℚ)) (s : St) :
    (attemptSystemRecovery r s).sys.pumpActive = s.sys.pumpActive := by
  unfold attemptSystemRecovery
  cases r <;> rfl

theorem attemptSystemRecovery_pumpStartTime (r : Option (ℚ × ℚ)) (s : St) :
    (attemptSystemRecovery r s).sys.pumpStartTime = s.sys.pumpStartTime := by
  unfold attemptSystemRecovery
  cases r <;> rfl

theorem recoveryPhase_pumpOk (i : Input) (now : Nat) (s : St)
    (hs : PumpOk now s) : PumpOk now (recoveryPhase i s) := by
  unfold recoveryPhase
  split
  · exact pumpOk_of_frames (attemptSystemRecovery_pumpActive i.recoveryDht s)
      (attemptSystemRecovery_pumpStartTime i.recoveryDht s) hs
  · exact hs

theorem emergencyStopProc_pumpActive (s : St) :
    (emergencyStopProc s).sys.pumpActive = false := by
  unfold emergencyStopProc
  split
  · rfl
  · rename_i h
    simpa using h

/-- C1: For every sequence of cycles and every sequence of sensor inputs
(including adversarial ones that keep soil moisture below threshold), the
pump is never left on longer than `MAX_PUMP_RUNTIME`: at the end of any
cycle, an active pump has elapsed runtime strictly below the ceiling — a
pump observed at or past the ceiling is forced off within that same cycle,
and any restart within the cycle resets `pumpStartTime` to the current
time. -/
theorem C1_pump_runtime_ceiling (now : Nat) (i : Input) (s : St) :
    (cycle now i s).sys.pumpActive = true →
    usub now (cycle now i s).sys.pumpStartTime < MAX_PUMP_RUNTIME := by
  show PumpOk now (cycle now i s)
  unfold cycle
  split
  · intro hp
    rw [emergencyStopProc_pumpActive] at hp
    cases hp
  · exact recoveryPhase_pumpOk i now _
      (statusPhase_pumpOk now _
        (controlIrrigation_pumpOk now _
          (sensorPhase_pumpOk now i _
            (handleControlReq_pumpOk now i.web _
              (runtimePhase_pumpOk now s)))))

/-- Witness for C1: the cycle at time 1000 that starts the pump through a
web request ends with the pump active and an elapsed runtime of zero. -/
theorem C1_pump_runtime_ceiling_witness :
    (cycle 1000 webStartInput initSt).sys.pumpActive = true ∧
    usub 1000 (cycle 1000 webStartInput initSt).sys.pumpStartTime < MAX_PUMP_RUNTIME :=
  ⟨by decide, C1_pump_runtime_ceiling 1000 webStartInput initSt (by decide)⟩

theorem emergencyStopProc_emergencyStop (s : St) :
    (emergencyStopProc s).sys.emergencyStop = true := by
  unfold emergencyStopProc
  split <;> rfl

theorem emergencyStopProc_relay (s : St) (h : s.relay = false) :
    (emergencyStopProc s).relay = false := by
  unfold emergencyStopProc
  split
  · rfl
  · exact h

theorem cycle_emergency (now : Nat) (i : Input) (s : St)
    (h : s.sys.emergencyStop = true) : cycle now i s = emergencyStopProc s := by
  unfold cycle
  simp [EMERGENCY_STOP_ENABLED, h]

theorem runCycles_halted (tr : List (Nat × Input)) : ∀ s : St,
    s.sys.emergencyStop = true → s.relay = false → s.sys.pumpActive = false →
    (runCycles s tr).sys.emergencyStop = true ∧ (runCycles s tr).relay = false ∧
    (runCycles s tr).sys.pumpActive = false := by
  induction tr with
  | nil => exact fun s h1 h2 h3 => ⟨h1, h2, h3⟩
  | cons c rest ih =>
    intro s h1 h2 h3
    rw [runCycles, cycle_emergency c.1 c.2 s h1]
    exact ih (emergencyStopProc s) (emergencyStopProc_emergencyStop s)
      (emergencyStopProc_relay s h2) (emergencyStopProc_pumpActive s)

/-- C2: Once the `emergencyStop` flag is set, the cycle reduces to the
emergency-stop routine (no irrigation evaluation, independent of all
inputs), and at every subsequent cycle the pump and the relay output stay
off and the latch stays set — no clear action exists in the loop. -/
theorem C2_emergency_stop_latch (s : St)
    (hset : s.sys.emergencyStop = true) (hline : s.relay = s.sys.pumpActive) :
    (∀ now i, cycle now i s = emergencyStopProc s) ∧
    ∀ tr : List (Nat × Input), tr ≠ [] →
      (runCycles s tr).sys.pumpActive = false ∧ (runCycles s tr).relay = false ∧
      (runCycles s tr).sys.emergencyStop = true := by
  refine ⟨fun now i => cycle_emergency now i s hset, ?_⟩
  intro tr htr
  match tr with
  | c :: rest =>
    rw [runCycles, cycle_emergency c.1 c.2 s hset]
    have hrel : (emergencyStopProc s).relay = false := by
      unfold emergencyStopProc
      split
      · rfl
      · rename_i hp
        simp only [Bool.not_eq_true] at hp
        show s.relay = false
        rw [hline, hp]
    have h := runCycles_halted rest (emergencyStopProc s)
      (emergencyStopProc_emergencyStop s) hrel (emergencyStopProc_pumpActive s)
    exact ⟨h.2.2, h.2.1, h.1⟩

/-- Witness for C2: from a latched state, one quiet cycle leaves the pump
off and behaves as the emergency routine. -/
theorem C2_emergency_stop_latch_witness :
    (cycle 0 quietInput estopSt = emergencyStopProc estopSt) ∧
    (runCycles estopSt [(0, quietInput)]).sys.pumpActive = false := by
  have h := C2_emergency_stop_latch estopSt rfl rfl
  exact ⟨h.1 0 quietInput, ((h.2 [(0, quietInput)]) (by simp)).1⟩

theorem stopIrrigation_daily (s : St) :
    (stopIrrigation s).sys.dailyIrrigations = s.sys.dailyIrrigations := rfl

theorem stopIrrigation_lastIrrigation (s : St) :
    (stopIrrigation s).sys.lastIrrigation = s.sys.lastIrrigation := rfl

theorem checkPumpRuntime_daily (now : Nat) (s : St) :
    (checkPumpRuntime now s).sys.dailyIrrigations = s.sys.dailyIrrigations := by
  unfold checkPumpRuntime
  split <;> rfl

theorem checkPumpRuntime_lastIrrigation (now : Nat) (s : St) :
    (checkPumpRuntime now s).sys.lastIrrigation = s.sys.lastIrrigation := by
  unfold checkPumpRuntime
  split <;> rfl

theorem runtimePhase_daily (now : Nat) (s : St) :
    (runtimePhase now s).sys.dailyIrrigations = s.sys.dailyIrrigations := by
  unfold runtimePhase
  split
  · exact checkPumpRuntime_daily now s
  · rfl

theorem runtimePhase_lastIrrigation (now : Nat) (s : St) :
    (runtimePhase now s).sys.lastIrrigation = s.sys.lastIrrigation := by
  unfold runtimePhase
  split
  · exact checkPumpRuntime_lastIrrigation now s
  · rfl

theorem readSensors_daily (d : Option (ℚ × ℚ)) (r : Int) (s : St) :
    (readSensors d r s).sys.dailyIrrigations = s.sys.dailyIrrigations := by
  unfold readSensors
  cases d with
  | none => rfl
  | some p =>
    cases p
    dsimp only
    split <;> rfl

theorem readSensors_lastIrrigation (d : Option (ℚ × ℚ)) (r : Int) (s : St) :
    (readSensors d r s).sys.lastIrrigation = s.sys.lastIrrigation := by
  unfold readSensors
  cases d with
  | none => rfl
  | some p =>
    cases p
    dsimp only
    split <;> rfl

theorem sensorPhase_daily (now : Nat) (i : Input) (s : St) :
    (sensorPhase now i s).sys.dailyIrrigations = s.sys.dailyIrrigations := by
  unfold sensorPhase
  split
  · exact readSensors_daily i.dht i.soilRaw s
  · rfl

theorem sensorPhase_lastIrrigation (now : Nat) (i : Input) (s : St) :
    (sensorPhase now i s).sys.lastIrrigation = s.sys.lastIrrigation := by
  unfold sensorPhase
  split
  · exact readSensors_lastIrrigation i.dht i.soilRaw s
  · rfl

theorem checkSystemStatus_daily (s : St) :
    (checkSystemStatus s).sys.dailyIrrigations = s.sys.dailyIrrigations := by
  unfold checkSystemStatus
  split
  · rfl
  · split <;> rfl

theorem statusPhase_daily (now : Nat) (s : St) :
    (statusPhase now s).sys.dailyIrrigations = s.sys.dailyIrrigations := by
  unfold statusPhase
  split
  · exact checkSystemStatus_daily s
  · rfl

theorem attemptSystemRecovery_daily (r : Option (ℚ × ℚ)) (s : St) :
    (attemptSystemRecovery r s).sys.dailyIrrigations = s.sys.dailyIrrigations := by
  unfold attemptSystemRecovery
  cases r <;> rfl

theorem recoveryPhase_daily (i : Input) (s : St) :
    (recoveryPhase i s).sys.dailyIrrigations = s.sys.dailyIrrigations := by
  unfold recoveryPhase
  split
  · exact attemptSystemRecovery_daily i.recoveryDht s
  · rfl

theorem emergencyStopProc_daily (s : St) :
    (emergencyStopProc s).sys.dailyIrrigations = s.sys.dailyIrrigations := by
  unfold emergencyStopProc
  split <;> rfl

theorem controlIrrigation_daily_le (now : Nat) (s : St)
    (h : s.sys.dailyIrrigations ≤ MAX_DAILY_IRRIGATIONS) :
    (controlIrrigation now s).sys.dailyIrrigations ≤ MAX_DAILY_IRRIGATIONS := by
  unfold controlIrrigation
  dsimp only
  split
  · rename_i hguard
    simp only [Bool.and_eq_true, decide_eq_true_eq] at hguard
    have hlt : s.sys.dailyIrrigations < MAX_DAILY_IRRIGATIONS := hguard.1.1.2
    split
    · show s.sys.dailyIrrigations + 1 ≤ MAX_DAILY_IRRIGATIONS
      omega
    · show s.sys.dailyIrrigations + 1 ≤ MAX_DAILY_IRRIGATIONS
      omega
  · split
    · exact h
    · exact h

theorem controlIrrigation_daily_of_cooldown (now : Nat) (s : St)
    (h : usub now s.sys.lastIrrigation < IRRIGATION_COOLDOWN) :
    (controlIrrigation now s).sys.dailyIrrigations = s.sys.dailyIrrigations := by
  unfold controlIrrigation
  dsimp only
  have hcool : decide (usub now s.sys.lastIrrigation ≥ IRRIGATION_COOLDOWN) = false := by
    simp
    omega
  simp only [hcool, Bool.and_false, Bool.false_and, Bool.false_eq_true, if_false]
  split <;> rfl

theorem cycle_daily_le (now : Nat) (i : Input) (s : St) (hweb : i.web = none)
    (h : s.sys.dailyIrrigations ≤ MAX_DAILY_IRRIGATIONS) :
    (cycle now i s).sys.dailyIrrigations ≤ MAX_DAILY_IRRIGATIONS := by
  unfold cycle
  split
  · rw [emergencyStopProc_daily]
    exact h
  · rw [recoveryPhase_daily, statusPhase_daily]
    apply controlIrrigation_daily_le
    rw [sensorPhase_daily, hweb]
    show (runtimePhase now s).sys.dailyIrrigations ≤ MAX_DAILY_IRRIGATIONS
    rw [runtimePhase_daily]
    exact h

theorem cycle_daily_cooldown (now : Nat) (i : Input) (s : St) (hweb : i.web = none)
    (h : usub now s.sys.lastIrrigation < IRRIGATION_COOLDOWN) :
    (cycle now i s).sys.dailyIrrigations = s.sys.dailyIrrigations := by
  unfold cycle
  split
  · exact emergencyStopProc_daily s
  · rw [recoveryPhase_daily, statusPhase_daily, hweb]
    show (controlIrrigation now (sensorPhase now i (runtimePhase now s))).sys.dailyIrrigations
      = s.sys.dailyIrrigations
    rw [controlIrrigation_daily_of_cooldown]
    · rw [sensorPhase_daily, runtimePhase_daily]
    · rw [sensorPhase_lastIrrigation, runtimePhase_lastIrrigation]
      exact h

theorem runCycles_daily_le (tr : List (Nat × Input))
    (hweb : ∀ c ∈ tr, (Prod.snd c).web = none) : ∀ s : St,
    s.sys.dailyIrrigations ≤ MAX_DAILY_IRRIGATIONS →
    (runCycles s tr).sys.dailyIrrigations ≤ MAX_DAILY_IRRIGATIONS := by
  induction tr with
  | nil => exact fun s h => h
  | cons c rest ih =>
    intro s h
    rw [runCycles]
    exact ih (fun d hd => hweb d (List.mem_cons_of_mem c hd)) _
      (cycle_daily_le c.1 c.2 s (hweb c (List.mem_cons_self c rest)) h)

/-- Counterexample to C3 as stated: from the initial state, eleven cycles
each delivering a `/control?action=start` web request drive
`dailyIrrigations` to 11, strictly above `MAX_DAILY_IRRIGATIONS = 10`. -/
theorem C3_counterexample :
    (runCycles initSt (List.replicate 11 (1000, webStartInput))).sys.dailyIrrigations = 11 ∧
    MAX_DAILY_IRRIGATIONS < 11 := by
  exact ⟨by decide, by decide⟩

/-- C3 (amended): in every state reachable from the initial state under
inputs that contain no web control requests, `dailyIrrigations` never
exceeds `MAX_DAILY_IRRIGATIONS`; a web `start` request increments the
counter unconditionally and can push it past the limit. -/
theorem C3_daily_cap (tr : List (Nat × Input))
    (hweb : ∀ c ∈ tr, (Prod.snd c).web = none) :
    (runCycles initSt tr).sys.dailyIrrigations ≤ MAX_DAILY_IRRIGATIONS :=
  runCycles_daily_le tr hweb initSt (by decide)

/-- Witness for C3 (amended) at a one-cycle request-free trace. -/
theorem C3_daily_cap_witness :
    (∀ c ∈ [((300000 : Nat), quietInput)], (Prod.snd c).web = none) ∧
    (runCycles initSt [((300000 : Nat), quietInput)]).sys.dailyIrrigations ≤ MAX_DAILY_IRRIGATIONS := by
  refine ⟨?_, C3_daily_cap [((300000 : Nat), quietInput)] ?_⟩ <;>
    simp [quietInput]

/-- Counterexample to C4 as stated: after a web start at time 1000,
`lastIrrigation = 1000`; at time 2000 the cooldown has not elapsed
(`usub 2000 1000 < IRRIGATION_COOLDOWN`), yet a second web start request is
accepted and increments `dailyIrrigations` to 2. -/
theorem C4_counterexample :
    (runCycles initSt [(1000, webStartInput)]).sys.lastIrrigation = 1000 ∧
    usub 2000 1000 < IRRIGATION_COOLDOWN ∧
    (runCycles initSt [(1000, webStartInput), (2000, webStartInput)]).sys.dailyIrrigations = 2 := by
  exact ⟨by decide, by decide, by decide⟩

/-- C4 (amended): while `(now - lastIrrigation) < IRRIGATION_COOLDOWN`, no
AUTOMATIC irrigation start is accepted in a cycle, however far below the
threshold the soil-moisture reading is; only web control requests bypass
the cooldown. -/
theorem C4_cooldown_blocks_start (now : Nat) (i : Input) (s : St) (hweb : i.web = none)
    (hcool : usub now s.sys.lastIrrigation < IRRIGATION_COOLDOWN) :
    (cycle now i s).sys.dailyIrrigations = s.sys.dailyIrrigations :=
  cycle_daily_cooldown now i s hweb hcool

/-- Witness for C4 (amended): at time 1000 from the initial state (last
irrigation recorded at 0) the cooldown is still running and no start
happens. -/
theorem C4_cooldown_blocks_start_witness :
    quietInput.web = none ∧
    usub 1000 initSt.sys.lastIrrigation < IRRIGATION_COOLDOWN ∧
    (cycle 1000 quietInput initSt).sys.dailyIrrigations = initSt.sys.dailyIrrigations :=
  ⟨rfl, by decide, C4_cooldown_blocks_start 1000 quietInput initSt rfl (by decide)⟩

/-- Counterexample to C5 as stated: an automatic irrigation starts at time
300000, the duration stop switches the pump off in the cycle at time
305000, and the next automatic start is accepted at time 600000 — only
295000 ms after the end of the previous event, strictly less than
`IRRIGATION_COOLDOWN = 300000`. The cooldown is anchored at the START of
the previous event, not its end. -/
theorem C5_counterexample :
    (runCycles initSt [(300000, quietInput)]).sys.pumpActive = true ∧
    (runCycles initSt [(300000, quietInput), (305000, quietInput)]).sys.pumpActive = false ∧
    (runCycles initSt [(300000, quietInput), (305000, quietInput),
      (600000, quietInput)]).sys.pumpActive = true ∧
    (runCycles initSt [(300000, quietInput), (305000, quietInput),
      (600000, quietInput)]).sys.dailyIrrigations = 2 ∧
    usub 600000 305000 < IRRIGATION_COOLDOWN := by
  exact ⟨by decide, by decide, by decide, by decide, by decide⟩

/-- C5 (amended): the cooldown is a minimum enforced time between the
START of one irrigation event (`lastIrrigation` is recorded when the pump
switches on) and the start of the next: whenever a cycle without web
requests starts an irrigation, at least `IRRIGATION_COOLDOWN` has elapsed
since the previous start. -/
theorem C5_cooldown_from_start (now : Nat) (i : Input) (s : St) (hweb : i.web = none)
    (hstart : (cycle now i s).sys.dailyIrrigations = s.sys.dailyIrrigations + 1) :
    usub now s.sys.lastIrrigation ≥ IRRIGATION_COOLDOWN := by
  by_contra h
  push_neg at h
  rw [cycle_daily_cooldown now i s hweb h] at hstart
  omega

/-- Witness for C5 (amended): the automatic start at time 300000 from the
initial state happens exactly when the cooldown since `lastIrrigation = 0`
has elapsed. -/
theorem C5_cooldown_from_start_witness :
    quietInput.web = none ∧
    (cycle 300000 quietInput initSt).sys.dailyIrrigations = initSt.sys.dailyIrrigations + 1 ∧
    usub 300000 initSt.sys.lastIrrigation ≥ IRRIGATION_COOLDOWN :=
  ⟨rfl, by decide, C5_cooldown_from_start 300000 quietInput initSt rfl (by decide)⟩

/-- C6: For every channel, the validator keeps the 3-sample history (the
new sample overwrites the slot at the ring index, which then advances
modulo 3), computes the integer average of the PREVIOUS three stored
samples, and the consistency verdict rejects exactly when the deviation
from that average exceeds `SENSOR_CONSISTENCY_THRESHOLD = 5`; the verdict
is a function of the pre-update history alone — independent of the range
and sudden-change results — and is ANDed with them to form each channel's
validity. -/
theorem C6_consistency_and_history (v : SensorValidation) (t h : ℚ) (m : Int) :
    ((validateSensorReadings v t h m).soilMoistureReadings
      = fun j => if j = v.readingIndex then m else v.soilMoistureReadings j) ∧
    (validateSensorReadings v t h m).readingIndex = v.readingIndex + 1 ∧
    (checkSensorConsistency v.soilMoistureReadings m = false ↔
      |m - Int.tdiv (v.soilMoistureReadings 0 + v.soilMoistureReadings 1 +
        v.soilMoistureReadings 2) 3| > SENSOR_CONSISTENCY_THRESHOLD) ∧
    (validateSensorReadings v t h m).soilMoistureValid =
      ((isSensorReadingValid (m : ℚ) (MIN_SOIL_MOISTURE : Int) (MAX_SOIL_MOISTURE : Int) SOIL_MOISTURE_VALIDATION
          && decide (|m - v.lastSoilMoisture| ≤ MAX_SOIL_MOISTURE_CHANGE))
        && checkSensorConsistency v.soilMoistureReadings m) ∧
    (validateSensorReadings v t h m).temperatureValid =
      (isSensorReadingValid t MIN_TEMPERATURE MAX_TEMPERATURE TEMPERATURE_VALIDATION
        && checkSensorConsistency v.temperatureReadings (ctrunc10 t)) ∧
    (validateSensorReadings v t h m).humidityValid =
      (isSensorReadingValid h MIN_HUMIDITY MAX_HUMIDITY HUMIDITY_VALIDATION
        && checkSensorConsistency v.humidityReadings (ctrunc10 h)) := by
  refine ⟨rfl, rfl, ?_, ?_, ?_, ?_⟩
  · simp [checkSensorConsistency, not_le]
  · unfold validateSensorReadings
    dsimp only
    simp only [SOIL_MOISTURE_VALIDATION, CONSISTENCY_VALIDATION, Bool.true_and, if_true]
    by_cases hΔ : |m - v.lastSoilMoisture| ≤ MAX_SOIL_MOISTURE_CHANGE
    · simp [hΔ, not_lt.mpr hΔ]
    · simp only [not_le] at hΔ
      simp [hΔ, not_le.mpr hΔ]
  · unfold validateSensorReadings
    dsimp only
    simp [CONSISTENCY_VALIDATION]
  · unfold validateSensorReadings
    dsimp only
    simp [CONSISTENCY_VALIDATION]

set_option maxRecDepth 8000 in
/-- C7: the code at the failing input. Ten consecutive soil-moisture
samples alternating between 100 % and 0 % are all rejected by validation
(`sensorErrors` climbs to 10, the final soil verdict is invalid), yet
`disconnectCount` stays 0 throughout: a non-NaN sensor read NEVER
increases the counter (last conjunct), the counter is compared to
`SENSOR_DISCONNECT_THRESHOLD` nowhere, and no disconnect report exists —
the disconnect-detection mechanism described by the claim is not
implemented. -/
theorem C7_no_disconnect_detection :
    ((List.foldl (fun s rb => readSensors (some (25, 50)) rb s) initSt
      [0, 4095, 0, 4095, 0, 4095, 0, 4095, 0, 4095]).val.disconnectCount = 0 ∧
    (List.foldl (fun s rb => readSensors (some (25, 50)) rb s) initSt
      [0, 4095, 0, 4095, 0, 4095, 0, 4095, 0, 4095]).sys.sensorErrors = 10 ∧
    (List.foldl (fun s rb => readSensors (some (25, 50)) rb s) initSt
      [0, 4095, 0, 4095, 0, 4095, 0, 4095, 0, 4095]).val.soilMoistureValid = false ∧
    SENSOR_DISCONNECT_THRESHOLD = 10) ∧
    ∀ (d : ℚ × ℚ) (r : Int) (s : St),
      (readSensors (some d) r s).val.disconnectCount ≤ s.val.disconnectCount := by
  constructor
  · exact ⟨by decide, by decide, by decide, rfl⟩
  · intro d r s
    unfold readSensors
    cases d
    dsimp only
    split
    · exact Nat.zero_le _
    · exact Nat.le_refl _

end MainV

/-- Counterexample to C8 as stated: in the `online/online.ino` variant, the
soil sample derived from raw reading 2048 (50 %) is REJECTED by validation
(sudden change of 50 from the stored 0 exceeds 20), yet `readSensors`
still overwrites `soilMoisturePercent` — the state `controlIrrigation`
compares against the threshold — from 0 to 50. -/
theorem C8_counterexample :
    (OnlineV.readSensors (some (25, 50)) 2048 OnlineV.initSt).val.soilMoistureValid = false ∧
    (OnlineV.readSensors (some (25, 50)) 2048 OnlineV.initSt).sys.soilMoisturePercent = 50 ∧
    OnlineV.initSt.sys.soilMoisturePercent = 0 := by
  exact ⟨by decide, by decide, by decide⟩

/-- C8 (amended): only the `smart_farming_online.ino` variant gates the
soil-moisture state on validation — there an invalid sample leaves
`soilMoisturePercent` (the value `controlIrrigation` reads) unchanged; the
`online/online.ino` variant updates `soilMoisturePercent` with the scaled
raw reading unconditionally, validated or not. -/
theorem C8_soil_gating_differs (t h : ℚ) (r : Int) :
    (∀ s : MainV.St,
      ((MainV.validateSensorReadings s.val t h (soilPercentOfRaw r)).temperatureValid &&
        (MainV.validateSensorReadings s.val t h (soilPercentOfRaw r)).humidityValid &&
        (MainV.validateSensorReadings s.val t h (soilPercentOfRaw r)).soilMoistureValid) = false →
      (MainV.readSensors (some (t, h)) r s).sys.soilMoisturePercent = s.sys.soilMoisturePercent) ∧
    ∀ s2 : OnlineV.St,
      (OnlineV.readSensors (some (t, h)) r s2).sys.soilMoisturePercent = soilPercentOfRaw r := by
  constructor
  · intro s hfalse
    unfold MainV.readSensors
    dsimp only
    rw [hfalse]
    rfl
  · intro s2
    unfold OnlineV.readSensors
    dsimp only
    split <;> rfl

/-- Witness for C8 (amended): at temperature 25, humidity 50 and raw soil
reading 2048 the validation fails from the initial state of either
variant; the main variant keeps its soil state, the online variant
overwrites it. -/
theorem C8_soil_gating_differs_witness :
    ((MainV.validateSensorReadings MainV.initSt.val 25 50 (soilPercentOfRaw 2048)).temperatureValid &&
      (MainV.validateSensorReadings MainV.initSt.val 25 50 (soilPercentOfRaw 2048)).humidityValid &&
      (MainV.validateSensorReadings MainV.initSt.val 25 50 (soilPercentOfRaw 2048)).soilMoistureValid) = false ∧
    (MainV.readSensors (some (25, 50)) 2048 MainV.initSt).sys.soilMoisturePercent
      = MainV.initSt.sys.soilMoisturePercent ∧
    (OnlineV.readSensors (some (25, 50)) 2048 OnlineV.initSt).sys.soilMoisturePercent
      = soilPercentOfRaw 2048 :=
  ⟨by decide, (C8_soil_gating_differs 25 50 2048).1 MainV.initSt (by decide),
    (C8_soil_gating_differs 25 50 2048).2 OnlineV.initSt⟩

namespace MainV

/-- C9: the HTTP `/control` endpoint bypasses every irrigation gate. For
EVERY state — cooldown still running, daily limit reached, system
unhealthy, soil above threshold, pump already on — `action=start` invokes
`startIrrigation` unconditionally: relay and pump on, `pumpStartTime` and
`lastIrrigation` set to the current time, `dailyIrrigations` incremented;
and `action=stop` invokes `stopIrrigation` unconditionally. -/
theorem C9_web_control_unconditional (now : Nat) (s : St) :
    handleControlReq now (some WebReq.start) s = startIrrigation now s ∧
    (startIrrigation now s).sys.pumpActive = true ∧
    (startIrrigation now s).relay = true ∧
    (startIrrigation now s).sys.pumpStartTime = now ∧
    (startIrrigation now s).sys.lastIrrigation = now ∧
    (startIrrigation now s).sys.dailyIrrigations = s.sys.dailyIrrigations + 1 ∧
    handleControlReq now (some WebReq.stop) s = stopIrrigation s ∧
    (stopIrrigation s).sys.pumpActive = false ∧
    (stopIrrigation s).relay = false :=
  ⟨rfl, rfl, rfl, rfl, rfl, rfl, rfl, rfl, rfl⟩

end MainV

/-- C10: in both variants `stopIrrigation` changes only `pumpActive` and
the relay line; `lastIrrigation`, `pumpStartTime`, `dailyIrrigations`,
`sensorErrors` and the whole sensor-validation struct are untouched, so
both the cooldown window and the duration window remain anchored at the
moment irrigation STARTED (`lastIrrigation` is written only by
`startIrrigation`). -/
theorem C10_stop_frame (s : MainV.St) (s2 : OnlineV.St) (now : Nat) :
    MainV.stopIrrigation s
      = { s with relay := false, sys := { s.sys with pumpActive := false } } ∧
    (MainV.stopIrrigation s).sys.lastIrrigation = s.sys.lastIrrigation ∧
    (MainV.stopIrrigation s).sys.pumpStartTime = s.sys.pumpStartTime ∧
    (MainV.stopIrrigation s).sys.dailyIrrigations = s.sys.dailyIrrigations ∧
    (MainV.stopIrrigation s).sys.sensorErrors = s.sys.sensorErrors ∧
    (MainV.stopIrrigation s).val = s.val ∧
    usub now (MainV.stopIrrigation s).sys.lastIrrigation = usub now s.sys.lastIrrigation ∧
    OnlineV.stopIrrigation s2
      = { s2 with relay := false, sys := { s2.sys with pumpActive := false } } ∧
    (OnlineV.stopIrrigation s2).sys.lastIrrigation = s2.sys.lastIrrigation ∧
    (OnlineV.stopIrrigation s2).sys.pumpStartTime = s2.sys.pumpStartTime ∧
    (OnlineV.stopIrrigation s2).sys.dailyIrrigations = s2.sys.dailyIrrigations ∧
    (OnlineV.stopIrrigation s2).sys.sensorErrors = s2.sys.sensorErrors ∧
    (OnlineV.stopIrrigation s2).val = s2.val :=
  ⟨rfl, rfl, rfl, rfl, rfl, rfl, rfl, rfl, rfl, rfl, rfl, rfl, rfl⟩

end SmartFarm
